import Mathlib

/-!
Shallow embedding of `claude-langfuse-monitor` (src/index.js) for checking its
natural-language specification.  JavaScript values appearing in parsed JSONL
entries are modelled by `JSValue`; the Monitor's run-lifetime mutable state by
`MonitorState`; message handling (`processMessage`) and file handling
(`processConversationFile`) are translated line by line from the source.
External collaborators are abstracted as parameters: the MD5 hex digest
(Node's `crypto`) as `md5hex : String → String`, `JSON.parse` as
`parse : String → Option JSValue` (`none` = the line throws), the Langfuse
sink as a `sinkFails` flag (a sink call that throws), and `Date.now()` as a
`now : JSValue` value.  Paths are modelled POSIX-style (`path.sep = "/"`).
-/

/-- A JSON-like JavaScript value (the result of `JSON.parse` on a line). -/
inductive JSValue where
  | vnull
  | vbool (b : Bool)
  | vnum (n : Int)
  | vstr (s : String)
  | varr (xs : List JSValue)
  | vobj (fields : List (String × JSValue))

-- Structural equality of `JSValue`s.  This models JavaScript's SameValueZero
-- (used by `Set.has`) for primitive values; object/array identity is by
-- structure, which agrees with the source for the primitive ids actually
-- stored in the processed-message set.
mutual
def JSValue.beq : JSValue → JSValue → Bool
  | .vnull, .vnull => true
  | .vbool a, .vbool b => a == b
  | .vnum a, .vnum b => a == b
  | .vstr a, .vstr b => a == b
  | .varr xs, .varr ys => JSValue.beqList xs ys
  | .vobj xs, .vobj ys => JSValue.beqFields xs ys
  | _, _ => false

def JSValue.beqList : List JSValue → List JSValue → Bool
  | [], [] => true
  | x :: xs, y :: ys => JSValue.beq x y && JSValue.beqList xs ys
  | _, _ => false

def JSValue.beqFields : List (String × JSValue) → List (String × JSValue) → Bool
  | [], [] => true
  | (k₁, v₁) :: xs, (k₂, v₂) :: ys =>
      k₁ == k₂ && JSValue.beq v₁ v₂ && JSValue.beqFields xs ys
  | _, _ => false
end

instance : BEq JSValue := ⟨JSValue.beq⟩

/-- JavaScript truthiness of a value (NaN is not modelled). -/
def jsTruthy : JSValue → Bool
  | .vnull => false
  | .vbool b => b
  | .vnum n => n != 0
  | .vstr s => s != ""
  | .varr _ => true
  | .vobj _ => true

/-- Truthiness of a possibly-`undefined` value (`none` = `undefined`). -/
def jsTruthyO : Option JSValue → Bool
  | none => false
  | some v => jsTruthy v

/-- First-match lookup in an object's field list (keys are unique in parsed JSON). -/
def jsLookup : List (String × JSValue) → String → Option JSValue
  | [], _ => none
  | (k, v) :: rest, key => if k = key then some v else jsLookup rest key

/-- `v.key` as in JavaScript: property access on `null` throws a TypeError;
on other non-objects it yields `undefined` (`none`). -/
def jsGet : JSValue → String → Except Unit (Option JSValue)
  | .vnull, _ => .error ()
  | .vobj fs, key => .ok (jsLookup fs key)
  | _, _ => .ok none

/-- Total property access, used after the entry is known not to be `null`
(the `entry.type` access has already succeeded). -/
def jsGetD : JSValue → String → Option JSValue
  | .vobj fs, key => jsLookup fs key
  | _, _ => none

/-- `typeof v === 'object'` (true for objects, arrays and `null`). -/
def jsIsObjectType : JSValue → Bool
  | .vnull => true
  | .vobj _ => true
  | .varr _ => true
  | _ => false

/-- `typeof v === 'string'`. -/
def jsIsStringType : JSValue → Bool
  | .vstr _ => true
  | _ => false

/-! JavaScript string primitives used by the source, implemented by structural
recursion over the character list so that concrete runs evaluate inside the
kernel.  Characters model UTF-16 units; every string the source manipulates
positionally (paths, previews) is ASCII apart from the role icons, which are
only ever concatenated. -/

/-- JavaScript `s.split(sep)` for a one-character separator (used with
`path.sep`, `'\n'` and `'/'`). -/
def jsSplitChar (sep : Char) : List Char → List (List Char)
  | [] => [[]]
  | c :: cs =>
      let r := jsSplitChar sep cs
      if c = sep then [] :: r
      else
        match r with
        | [] => [[c]]
        | g :: gs => (c :: g) :: gs

/-- `s.split(sep)` returning strings. -/
def jsSplit (sep : Char) (s : String) : List String :=
  (jsSplitChar sep s.data).map (fun l => ⟨l⟩)

/-- `s.replace(pattern, c₁)` for a one-character global-regex pattern `c₀`
(used for replacing each dash with a slash, and each newline with a space). -/
def jsMapReplace (c₀ c₁ : Char) (s : String) : String :=
  ⟨s.data.map (fun c => if c = c₀ then c₁ else c)⟩

/-- `s.substring(0, n)`. -/
def jsTake (n : Nat) (s : String) : String := ⟨s.data.take n⟩

/-- The whitespace characters relevant to `String.prototype.trim` here. -/
def jsWhitespace (c : Char) : Bool :=
  c = ' ' || c = '\n' || c = '\t' || c = '\r'

/-- `s.trim()`. -/
def jsTrim (s : String) : String :=
  ⟨((s.data.dropWhile jsWhitespace).reverse.dropWhile jsWhitespace).reverse⟩

/-- Whether `suf` is a suffix of `s`. -/
def strEndsWith (s suf : String) : Bool :=
  s.data.reverse.take suf.data.length = suf.data.reverse

/-- Drop the last `n` characters of `s`. -/
def strDropRight (s : String) (n : Nat) : String :=
  ⟨s.data.take (s.data.length - n)⟩

/-- Last element of a list, with default (JavaScript `Array.prototype.pop` on
the freshly split array). -/
def listLastD {α : Type} (d : α) : List α → α
  | [] => d
  | [x] => x
  | _ :: x :: xs => listLastD d (x :: xs)

/-- JavaScript `Set.has` over the processed-message set (structural equality,
see `JSValue.beq`). -/
def setHas : List JSValue → JSValue → Bool
  | [], _ => false
  | x :: xs, v => JSValue.beq x v || setHas xs v

/-- JavaScript `Map.get` over a string-keyed map, modelled as an association
list (newest binding first; `Map.set` is only called on absent keys in the
source, so first-match lookup is faithful). -/
def mapGet {α : Type} : List (String × α) → String → Option α
  | [], _ => none
  | (k, v) :: rest, key => if k = key then some v else mapGet rest key

/-! ## Monitor construction (src/index.js lines 18–40) -/

/-- The options object handed to `new Monitor(options)`.  The CLI
(`bin/claude-langfuse.js`, `start` command) passes `historyHours`, `daemon`
and `quiet`; the `status` command passes `dryRun`.  `none` = the property is
absent (`undefined`). -/
structure MonitorInit where
  historyHours : Option Int
  daemon : Option Bool
  dryRun : Option Bool
  quiet : Option Bool
deriving DecidableEq

/-- The options the constructor actually stores (`this.options`, lines 20–24).
Note: no `quiet` field — the constructor does not store it. -/
structure MonitorOptions where
  historyHours : Int
  daemon : Bool
  dryRun : Bool
deriving DecidableEq

/-- JavaScript `v || d` on a possibly-absent number (`0` is falsy). -/
def jsOrElseInt (v : Option Int) (d : Int) : Int :=
  match v with
  | some n => if n = 0 then d else n
  | none => d

/-- JavaScript `v || d` on a possibly-absent boolean. -/
def jsOrElseBool (v : Option Bool) (d : Bool) : Bool :=
  match v with
  | some b => if b then b else d
  | none => d

/-- `this.options = { historyHours: options.historyHours || 24,
daemon: options.daemon || false, dryRun: options.dryRun || false }`
(lines 20–24).  Any `quiet` property of the input is dropped. -/
def mkMonitorOptions (inp : MonitorInit) : MonitorOptions :=
  { historyHours := jsOrElseInt inp.historyHours 24
  , daemon := jsOrElseBool inp.daemon false
  , dryRun := jsOrElseBool inp.dryRun false }

/-- The Monitor's run-lifetime mutable state: `this.options`,
`this.processedMessages` (a Set, newest element first) and
`this.conversationSessions` (a Map from file path to session id). -/
structure MonitorState where
  options : MonitorOptions
  processedMessages : List JSValue
  conversationSessions : List (String × String)

/-- State right after the constructor ran (lines 26–27): both caches empty. -/
def initialMonitorState (inp : MonitorInit) : MonitorState :=
  { options := mkMonitorOptions inp
  , processedMessages := []
  , conversationSessions := [] }

/-- `start()` runs the startup backfill iff `this.options.historyHours > 0`
(lines 73–75). -/
def backfillRuns (opts : MonitorOptions) : Bool :=
  opts.historyHours > 0

/-! ## Outbound records (src/index.js lines 232–268) -/

/-- The Trace record built for a user message (`this.langfuse.trace`,
lines 235–250). -/
structure TraceRecord where
  id : JSValue
  name : String
  sessionId : String
  userId : String
  metaProject : String
  metaConversationId : String
  metaGitBranch : Option JSValue
  metaCwd : Option JSValue
  metaMessageType : String
  metaSource : String
  input : JSValue
  timestamp : JSValue

/-- The Generation record built for an assistant message
(`this.langfuse.generation`, lines 252–267). -/
structure GenerationRecord where
  id : JSValue
  traceId : Option JSValue
  name : String
  model : String
  metaProject : String
  metaConversationId : String
  metaRequestId : Option JSValue
  metaMessageType : String
  metaSource : String
  output : JSValue
  startTime : JSValue
  endTime : JSValue

/-- A record accepted by the Langfuse sink. -/
inductive OutRecord where
  | trace (t : TraceRecord)
  | generation (g : GenerationRecord)

/-- The input text of a Trace record / output text of a Generation record. -/
def recordText : OutRecord → JSValue
  | .trace t => t.input
  | .generation g => g.output

/-! ## Text extraction and local echo (src/index.js lines 211–226) -/

/-- Lines 212–217: `let text = ''; if (entry.message && typeof entry.message
=== 'object') { text = entry.message.text || ''; } else if (typeof
entry.message === 'string') { text = entry.message; }`.  The argument is the
value of `entry.message` (`none` = absent).  The result is whatever JavaScript
value ends up in `text` — not necessarily a string, since a truthy non-string
`message.text` is kept as is. -/
def extractText (message : Option JSValue) : JSValue :=
  match message with
  | some m =>
      if jsTruthy m && jsIsObjectType m then
        let t := match m with
          | .vobj fs => jsLookup fs "text"
          | _ => none
        if jsTruthyO t then t.getD .vnull else .vstr ""
      else if jsIsStringType m then m
      else .vstr ""
  | none => .vstr ""

/-- Line 223: `text.substring(0, 60).replace(/\n/g, ' ')`.  `substring` is a
String.prototype method: it throws a TypeError when `text` is not a string
(e.g. a truthy non-string `message.text`). -/
def jsPreviewOfText : JSValue → Except Unit String
  | .vstr s => .ok (jsMapReplace '\n' ' ' (jsTake 60 s))
  | _ => .error ()

/-- Line 222: `projectPath.split('/').pop()`. -/
def lastSegment (projectPath : String) : String :=
  listLastD "" (jsSplit '/' projectPath)

/-- JavaScript `v === 's'` for a string literal `s` (`v` possibly `undefined`). -/
def jsStrEq (v : Option JSValue) (s : String) : Bool :=
  match v with
  | some (.vstr t) => t == s
  | _ => false

/-- Line 224: `msgType === 'user' ? '👤' : '🤖'`. -/
def roleIcon (msgType : Option JSValue) : String :=
  if jsStrEq msgType "user" then "👤" else "🤖"

/-- Line 226: the preview line printed by `console.log` (chalk colouring
dropped). -/
def previewLine (msgType : Option JSValue) (projectPath preview : String) :
    String :=
  roleIcon msgType ++ " [" ++ lastSegment projectPath ++ "] " ++ preview ++ "..."

/-! ## Message processing (src/index.js lines 196–278) -/

/-- Result of one `processMessage` call: the state afterwards, the lines it
printed, the records the sink accepted, whether `flushAsync` was requested,
and whether the call threw (a throw propagates to the caller's per-line
`catch`; effects made before the throw persist). -/
structure StepResult where
  state : MonitorState
  printed : List String
  records : List OutRecord
  flushRequested : Bool
  raised : Bool

/-- `processMessage(entry, sessionId, projectPath, conversationId)`
(lines 196–278), translated step by step:
type check (199–201), dedup (203–209), text extraction (211–217),
timestamp (219), local echo (221–226), dry-run early return (228–230),
forwarding inside `try`/`catch` (232–277) with the periodic-flush check
(270–273).  `sinkFails` = the sink call throws (the `catch` at 275 swallows
it); `now` = `Date.now()`. -/
def processMessage (sinkFails : Bool) (now : JSValue) (entry : JSValue)
    (sessionId projectPath conversationId : String) (st : MonitorState) :
    StepResult :=
  match jsGet entry "type" with
  | .error _ => ⟨st, [], [], false, true⟩
  | .ok msgType =>
  if !(jsStrEq msgType "user" || jsStrEq msgType "assistant") then
    ⟨st, [], [], false, false⟩
  else
  match jsGetD entry "uuid" with
  | none => ⟨st, [], [], false, false⟩
  | some u =>
  if !jsTruthy u then ⟨st, [], [], false, false⟩
  else if setHas st.processedMessages u then ⟨st, [], [], false, false⟩
  else
  let st1 : MonitorState := { st with processedMessages := u :: st.processedMessages }
  let text := extractText (jsGetD entry "message")
  let tsv :=
    let t := jsGetD entry "timestamp"
    if jsTruthyO t then t.getD .vnull else now
  match jsPreviewOfText text with
  | .error _ => ⟨st1, [], [], false, true⟩
  | .ok preview =>
  let line := previewLine msgType projectPath preview
  if st1.options.dryRun then ⟨st1, [line], [], false, false⟩
  else if sinkFails then ⟨st1, [line], [], false, false⟩
  else
  let r : OutRecord :=
    if jsStrEq msgType "user" then
      .trace
        { id := u
        , name := "claude_code_user"
        , sessionId := sessionId
        , userId := "michael@oboyle.co"
        , metaProject := projectPath
        , metaConversationId := conversationId
        , metaGitBranch := jsGetD entry "gitBranch"
        , metaCwd := jsGetD entry "cwd"
        , metaMessageType := "user"
        , metaSource := "claude_code_automatic"
        , input := text
        , timestamp := tsv }
    else
      .generation
        { id := u
        , traceId := jsGetD entry "parentUuid"
        , name := "claude_response"
        , model := "claude-sonnet-4-5-20250929"
        , metaProject := projectPath
        , metaConversationId := conversationId
        , metaRequestId := jsGetD entry "requestId"
        , metaMessageType := "assistant"
        , metaSource := "claude_code_automatic"
        , output := text
        , startTime := tsv
        , endTime := tsv }
  ⟨st1, [line], [r], st1.processedMessages.length % 10 == 0, false⟩

/-! ## Conversation-file processing (src/index.js lines 155–194) -/

/-- JavaScript `Array.prototype.indexOf` (first index, `-1` when absent),
line 159. -/
def jsIndexOf (parts : List String) (s : String) : Int :=
  match parts with
  | [] => -1
  | p :: rest =>
      if p = s then 0
      else
        let r := jsIndexOf rest s
        if r = -1 then -1 else r + 1

/-- Node `path.basename(p, ext)` on a POSIX path without a trailing slash:
the last path component, with `ext` stripped when it is a proper suffix
(line 167). -/
def jsBasenameNoExt (p ext : String) : String :=
  let b := listLastD "" (jsSplit '/' p)
  if b ≠ ext ∧ strEndsWith b ext then strDropRight b ext.data.length else b

/-- Lines 169–176 (Session Identity Resolver): return the cached session id
for `filepath` if present, else cache
`md5hex ("{projectPath}:{conversationId}")` under `filepath` and return it. -/
def resolveSession (md5hex : String → String)
    (filepath projectPath conversationId : String)
    (cache : List (String × String)) : String × List (String × String) :=
  let cache' :=
    match mapGet cache filepath with
    | some _ => cache
    | none =>
        (filepath, md5hex (projectPath ++ ":" ++ conversationId)) :: cache
  ((mapGet cache' filepath).getD "", cache')

/-- The per-line body of the loop at lines 182–189: `JSON.parse` the line
(`parse line = none` = it throws → the line is skipped) and run
`processMessage`; the `catch` also swallows a throw out of `processMessage`,
keeping whatever state changes it made before throwing. -/
def processLineStep (parse : String → Option JSValue) (sinkFails : Bool)
    (now : JSValue) (sessionId projectPath conversationId : String)
    (acc : MonitorState × List String × List OutRecord) (line : String) :
    MonitorState × List String × List OutRecord :=
  match parse line with
  | none => acc
  | some entry =>
      let r := processMessage sinkFails now entry sessionId projectPath
        conversationId acc.1
      (r.state, acc.2.1 ++ r.printed, acc.2.2 ++ r.records)

/-- `processConversationFile(filepath)` (lines 155–194): derive the project
path and conversation id from the file path, resolve the session id, split
the given file `content` into non-blank lines and process each.  Returns the
state afterwards plus everything printed and every record the sink accepted. -/
def processConversationFile (md5hex : String → String)
    (parse : String → Option JSValue) (now : JSValue) (sinkFails : Bool)
    (filepath content : String) (st : MonitorState) :
    MonitorState × List String × List OutRecord :=
  let pathParts := jsSplit '/' filepath
  let projectsIdx := jsIndexOf pathParts "projects"
  if projectsIdx = -1 ∨ projectsIdx ≥ (pathParts.length : Int) - 2 then
    (st, [], [])
  else
    let encodedProject := pathParts.getD (projectsIdx.toNat + 1) ""
    let projectPath := jsMapReplace '-' '/' encodedProject
    let conversationId := jsBasenameNoExt filepath ".jsonl"
    let (sessionId, cache') := resolveSession md5hex filepath projectPath
      conversationId st.conversationSessions
    let st1 : MonitorState := { st with conversationSessions := cache' }
    let fileLines := (jsSplit '\n' content).filter (fun l => jsTrim l ≠ "")
    fileLines.foldl
      (processLineStep parse sinkFails now sessionId projectPath conversationId)
      (st1, [], [])

/-! ## Entry shapes and concrete scenario inputs -/

/-- A parsed entry with the three fields `processMessage` inspects first:
`type`, `uuid` and `message`. -/
def mkEntry (ty : String) (uuidVal msg : JSValue) : JSValue :=
  .vobj [("type", .vstr ty), ("uuid", uuidVal), ("message", msg)]

/-- An options object with no properties set (`new Monitor()`). -/
def defaultInit : MonitorInit := ⟨none, none, none, none⟩

/-- A message payload carrying only a tool-use content block (the shape Claude
Code writes for tool invocations): no `text` field at all. -/
def toolUseMessage : JSValue :=
  .vobj [("content", .varr [.vobj
    [("type", .vstr "tool_use"), ("name", .vstr "Bash"),
     ("input", .vobj [("command", .vstr "ls")])]])]

/-- A parsed entry with no `uuid` property at all. -/
def mkEntryNoId (ty : String) (msg : JSValue) : JSValue :=
  .vobj [("type", .vstr ty), ("message", msg)]

/-- A two-line parse function for the `c8` witness. -/
def c8WitnessParse : String → Option JSValue := fun l =>
  if l = "l1" then some (mkEntry "user" (.vstr "ua") (.vobj [("text", .vstr "ta")]))
  else some (mkEntry "user" (.vstr "ub") (.vobj [("text", .vstr "tb")]))

/-- The file path of the end-to-end scenario:
`<root>/projects/a-b-c/conv1.jsonl`. -/
def c1Path : String := "/home/user/.claude/projects/a-b-c/conv1.jsonl"

/-- The file content: a single non-blank line (its characters are irrelevant;
`parse` gives its parse). -/
def c1Content : String := "single-user-line"

/-- The single entry: user kind, id `"m1"`, text `"hi"`, timestamp `tsv`. -/
def c1Entry (tsv : JSValue) : JSValue :=
  .vobj [("type", .vstr "user"), ("uuid", .vstr "m1"),
         ("message", .vobj [("text", .vstr "hi")]), ("timestamp", tsv)]

/-- The Trace record the scenario must produce: id `"m1"`, session id =
MD5 hex digest of `"a/b/c:conv1"`, input `"hi"`. -/
def c1ExpectedTrace (md5hex : String → String) (tsv : JSValue) : TraceRecord :=
  { id := .vstr "m1"
  , name := "claude_code_user"
  , sessionId := md5hex "a/b/c:conv1"
  , userId := "michael@oboyle.co"
  , metaProject := "a/b/c"
  , metaConversationId := "conv1"
  , metaGitBranch := none
  , metaCwd := none
  , metaMessageType := "user"
  , metaSource := "claude_code_automatic"
  , input := .vstr "hi"
  , timestamp := tsv }

/-- A parse function mapping every line to the `c1` entry with timestamp `"T"`. -/
def c1WitnessParse : String → Option JSValue := fun _ => some (c1Entry (.vstr "T"))

mutual
theorem JSValue.beq_refl : ∀ v : JSValue, JSValue.beq v v = true
  | .vnull => rfl
  | .vbool b => by simp [JSValue.beq]
  | .vnum n => by simp [JSValue.beq]
  | .vstr s => by simp [JSValue.beq]
  | .varr xs => by simp [JSValue.beq, JSValue.beqList_refl xs]
  | .vobj fs => by simp [JSValue.beq, JSValue.beqFields_refl fs]

theorem JSValue.beqList_refl : ∀ xs : List JSValue, JSValue.beqList xs xs = true
  | [] => rfl
  | x :: xs => by simp [JSValue.beqList, JSValue.beq_refl x, JSValue.beqList_refl xs]

theorem JSValue.beqFields_refl :
    ∀ fs : List (String × JSValue), JSValue.beqFields fs fs = true
  | [] => rfl
  | (k, v) :: fs => by
      simp [JSValue.beqFields, JSValue.beq_refl v, JSValue.beqFields_refl fs]
end

/-! ## Helper lemmas about `processMessage` -/

theorem mkEntry_type (ty : String) (u m : JSValue) :
    jsGet (mkEntry ty u m) "type" = .ok (some (.vstr ty)) := by
  simp [mkEntry, jsGet, jsLookup]

theorem mkEntry_uuid (ty : String) (u m : JSValue) :
    jsGetD (mkEntry ty u m) "uuid" = some u := by
  simp [mkEntry, jsGetD, jsLookup]

theorem mkEntry_message (ty : String) (u m : JSValue) :
    jsGetD (mkEntry ty u m) "message" = some m := by
  simp [mkEntry, jsGetD, jsLookup]

/-- An eligible entry whose id is already recorded is dropped with no state
change, nothing printed, no record, no flush, no throw. -/
theorem pm_seen_drop (sf : Bool) (now uVal msg : JSValue)
    (ty sess pp cid : String) (st : MonitorState)
    (hty : ty = "user" ∨ ty = "assistant")
    (htr : jsTruthy uVal = true)
    (hseen : setHas st.processedMessages uVal = true) :
    processMessage sf now (mkEntry ty uVal msg) sess pp cid st =
      ⟨st, [], [], false, false⟩ := by
  rcases hty with h | h <;> subst h <;>
    simp [processMessage, mkEntry_type, mkEntry_uuid, jsStrEq, htr, hseen]

/-- An eligible entry with a falsy id value is dropped with no state change. -/
theorem pm_falsy_uuid_drop (sf : Bool) (now uVal msg : JSValue)
    (ty sess pp cid : String) (st : MonitorState)
    (hty : ty = "user" ∨ ty = "assistant")
    (htr : jsTruthy uVal = false) :
    processMessage sf now (mkEntry ty uVal msg) sess pp cid st =
      ⟨st, [], [], false, false⟩ := by
  rcases hty with h | h <;> subst h <;>
    simp [processMessage, mkEntry_type, mkEntry_uuid, jsStrEq, htr]

/-- After processing a fresh eligible id, the state is the old state with that
id inserted — whatever the payload, whether the local echo throws, whether
dry-run is on and whether the sink fails. -/
theorem pm_fresh_state (sf : Bool) (now uVal msg : JSValue)
    (ty sess pp cid : String) (st : MonitorState)
    (hty : ty = "user" ∨ ty = "assistant")
    (htr : jsTruthy uVal = true)
    (hfresh : setHas st.processedMessages uVal = false) :
    (processMessage sf now (mkEntry ty uVal msg) sess pp cid st).state =
      { st with processedMessages := uVal :: st.processedMessages } := by
  rcases hty with h | h <;> subst h <;>
    simp only [processMessage, mkEntry_type, mkEntry_uuid, mkEntry_message,
      jsStrEq, htr, hfresh] <;>
    · simp only [beq_self_eq_true, Bool.true_or, Bool.or_true, Bool.not_true,
        Bool.false_eq_true, if_false, Bool.not_false]
      split <;> first
        | rfl
        | (split <;> first | rfl | (split <;> rfl))

/-- When the extracted text is a string, a fresh eligible entry never throws,
and exactly one preview line is printed — in every mode (dry-run or not,
failing sink or not). -/
theorem pm_fresh_string_prints (sf : Bool) (now uVal msg : JSValue)
    (ty sess pp cid : String) (st : MonitorState) (s : String)
    (hty : ty = "user" ∨ ty = "assistant")
    (htr : jsTruthy uVal = true)
    (hfresh : setHas st.processedMessages uVal = false)
    (htext : extractText (some msg) = .vstr s) :
    (processMessage sf now (mkEntry ty uVal msg) sess pp cid st).raised = false ∧
    (processMessage sf now (mkEntry ty uVal msg) sess pp cid st).printed =
      [previewLine (some (.vstr ty)) pp (jsMapReplace '\n' ' ' (jsTake 60 s))] := by
  rcases hty with h | h <;> subst h <;>
    simp only [processMessage, mkEntry_type, mkEntry_uuid, mkEntry_message,
      jsStrEq, htr, hfresh, htext, jsPreviewOfText] <;>
    · simp only [beq_self_eq_true, Bool.true_or, Bool.or_true, Bool.not_true,
        Bool.false_eq_true, if_false, Bool.not_false]
      split <;> (try split) <;> simp

/-- When the preview computation throws (non-string extracted text), a fresh
eligible entry returns with `raised`, nothing printed and no record — but the
id already inserted. -/
theorem pm_fresh_nonstring_raises (sf : Bool) (now uVal msg : JSValue)
    (ty sess pp cid : String) (st : MonitorState)
    (hty : ty = "user" ∨ ty = "assistant")
    (htr : jsTruthy uVal = true)
    (hfresh : setHas st.processedMessages uVal = false)
    (htext : jsPreviewOfText (extractText (some msg)) = .error ()) :
    processMessage sf now (mkEntry ty uVal msg) sess pp cid st =
      ⟨{ st with processedMessages := uVal :: st.processedMessages },
        [], [], false, true⟩ := by
  rcases hty with h | h <;> subst h <;>
    simp [processMessage, mkEntry_type, mkEntry_uuid, mkEntry_message,
      jsStrEq, htr, hfresh, htext]

/-- With a failing sink (and dry-run off), a fresh eligible entry with string
text yields no record, no throw, and the id inserted. -/
theorem pm_sink_failure (now uVal msg : JSValue)
    (ty sess pp cid : String) (st : MonitorState) (s : String)
    (hty : ty = "user" ∨ ty = "assistant")
    (htr : jsTruthy uVal = true)
    (hfresh : setHas st.processedMessages uVal = false)
    (htext : extractText (some msg) = .vstr s)
    (hdry : st.options.dryRun = false) :
    processMessage true now (mkEntry ty uVal msg) sess pp cid st =
      ⟨{ st with processedMessages := uVal :: st.processedMessages },
        [previewLine (some (.vstr ty)) pp (jsMapReplace '\n' ' ' (jsTake 60 s))],
        [], false, false⟩ := by
  rcases hty with h | h <;> subst h <;>
    simp [processMessage, mkEntry_type, mkEntry_uuid, mkEntry_message,
      jsStrEq, htr, hfresh, htext, jsPreviewOfText, hdry]

/-! ## Claims -/

/-- C5, counterexample.  The claim says a zero lookback window skips the
startup backfill.  It does not: the constructor's `options.historyHours || 24`
treats `0` as falsy and replaces it with the default `24`, so with
`historyHours: 0` the stored window is `24` and `start()` runs the backfill. -/
theorem c5_counterexample :
    (mkMonitorOptions ⟨some 0, none, none, none⟩).historyHours = 24 ∧
    backfillRuns (mkMonitorOptions ⟨some 0, none, none, none⟩) = true := by
  constructor <;> rfl

/-- C5, amended: a **negative** configured lookback window skips the startup
backfill (the stored value stays negative and fails the `> 0` check); a zero
window is replaced by the default of 24 hours at construction, so backfill
runs with a 24-hour window. -/
theorem c5_amended (h : Int) (d r q : Option Bool) (hneg : h < 0) :
    backfillRuns (mkMonitorOptions ⟨some h, d, r, q⟩) = false := by
  have hz : h ≠ 0 := by omega
  simp only [backfillRuns, mkMonitorOptions, jsOrElseInt, hz, if_false, decide_eq_false_iff_not]
  omega

/-- Witness for `c5_amended` at `historyHours = -1`. -/
theorem c5_amended_witness :
    (-1 : Int) < 0 ∧
    backfillRuns (mkMonitorOptions ⟨some (-1), none, none, none⟩) = false :=
  ⟨by decide, c5_amended (-1) none none none (by decide)⟩

/-- C3, code-bug evidence.  The CLI documents and passes a quiet option
("Quiet mode - only show summaries, not individual messages"), but the
constructor drops it (`this.options` keeps only historyHours/daemon/dryRun)
and `processMessage` prints the preview line unconditionally: with
`quiet: true` a forwarded-eligible entry still prints exactly one preview
line, and the stored options are identical to those of a monitor constructed
without `quiet`. -/
theorem c3_quiet_mode_still_prints :
    (processMessage false .vnull
        (mkEntry "user" (.vstr "m1") (.vobj [("text", .vstr "hi")]))
        "sess" "a/b/c" "conv1"
        (initialMonitorState ⟨none, none, none, some true⟩)).printed.length = 1 ∧
    mkMonitorOptions ⟨none, none, none, some true⟩ = mkMonitorOptions defaultInit := by
  constructor <;> rfl

/-- C4, counterexample.  The claim says the Message Processor maintains
running user/assistant message counters.  The constructor creates no counter
fields (only the processed-id set and the session cache), and processing a
fresh user entry leaves the Monitor in *exactly* the same state as processing
a fresh assistant entry with the same id (dry-run, so forwarding is not in
play): no component of the retained state can be a per-role counter. -/
theorem c4_counterexample :
    (processMessage false .vnull
        (mkEntry "user" (.vstr "x") (.vobj [("text", .vstr "hi")]))
        "s" "p" "c" (initialMonitorState ⟨none, none, some true, none⟩)).state =
      (processMessage false .vnull
        (mkEntry "assistant" (.vstr "x") (.vobj [("text", .vstr "hi")]))
        "s" "p" "c" (initialMonitorState ⟨none, none, some true, none⟩)).state ∧
    (processMessage false .vnull
        (mkEntry "user" (.vstr "x") (.vobj [("text", .vstr "hi")]))
        "s" "p" "c" (initialMonitorState ⟨none, none, some true, none⟩)).records =
      (processMessage false .vnull
        (mkEntry "assistant" (.vstr "x") (.vobj [("text", .vstr "hi")]))
        "s" "p" "c" (initialMonitorState ⟨none, none, some true, none⟩)).records := by
  constructor <;> rfl

/-- C4, amended: the Monitor keeps no per-role message counters; its only
growing per-message state is the processed-id set.  Processing a fresh id
grows that set by exactly one, and immediately reprocessing the same id
leaves the state unchanged and emits nothing. -/
theorem c4_amended (sf : Bool) (now uVal msg : JSValue)
    (ty sess pp cid : String) (st : MonitorState)
    (hty : ty = "user" ∨ ty = "assistant")
    (htr : jsTruthy uVal = true)
    (hfresh : setHas st.processedMessages uVal = false) :
    (processMessage sf now (mkEntry ty uVal msg) sess pp cid st).state.processedMessages.length =
      st.processedMessages.length + 1 ∧
    processMessage sf now (mkEntry ty uVal msg) sess pp cid
        (processMessage sf now (mkEntry ty uVal msg) sess pp cid st).state =
      ⟨(processMessage sf now (mkEntry ty uVal msg) sess pp cid st).state,
        [], [], false, false⟩ := by
  have hstate := pm_fresh_state sf now uVal msg ty sess pp cid st hty htr hfresh
  refine ⟨by rw [hstate]; simp, ?_⟩
  rw [hstate]
  exact pm_seen_drop sf now uVal msg ty sess pp cid _ hty htr
    (by simp [setHas, JSValue.beq_refl])

/-- Witness for `c4_amended` at a concrete fresh id. -/
theorem c4_amended_witness :
    jsTruthy (.vstr "w4") = true ∧
    setHas (initialMonitorState defaultInit).processedMessages (.vstr "w4") = false ∧
    (processMessage false .vnull (mkEntry "user" (.vstr "w4") (.vobj []))
        "s" "p" "c" (initialMonitorState defaultInit)).state.processedMessages.length =
      (initialMonitorState defaultInit).processedMessages.length + 1 :=
  ⟨by decide, by decide,
    (c4_amended false .vnull (.vstr "w4") (.vobj []) "user" "s" "p" "c"
      (initialMonitorState defaultInit) (Or.inl rfl) (by decide) (by decide)).1⟩

/-- C2, counterexample.  The claim says tool-invocation/tool-result content
blocks yield a non-empty inline summary in the forwarded record.  They do
not: text extraction reads only `entry.message.text` (or a plain-string
payload), so a payload carrying a tool-use content block and no `text` field
extracts to the empty string, and the forwarded Trace record's input is
`""` — no summary of the block at all. -/
theorem c2_counterexample :
    extractText (some toolUseMessage) = .vstr "" ∧
    ((processMessage false .vnull (mkEntry "user" (.vstr "t1") toolUseMessage)
        "s" "a/b/c" "conv1" (initialMonitorState defaultInit)).records.map
      recordText) = [.vstr ""] := by
  constructor <;> rfl

/-- C2, amended: tool-invocation and tool-result content blocks are dropped,
not summarized — text extraction never inspects `message.content`; any
structured payload whose `text` field is absent or falsy (in particular one
carrying only content blocks) extracts to the empty string. -/
theorem c2_amended (fs : List (String × JSValue))
    (h : jsTruthyO (jsLookup fs "text") = false) :
    extractText (some (.vobj fs)) = .vstr "" := by
  simp [extractText, jsTruthy, jsIsObjectType, h]

/-- Witness for `c2_amended` at the tool-use payload. -/
theorem c2_amended_witness :
    jsTruthyO (jsLookup [("content", JSValue.varr [.vobj
      [("type", .vstr "tool_use"), ("name", .vstr "Bash"),
       ("input", .vobj [("command", .vstr "ls")])]])] "text") = false ∧
    extractText (some (.vobj [("content", JSValue.varr [.vobj
      [("type", .vstr "tool_use"), ("name", .vstr "Bash"),
       ("input", .vobj [("command", .vstr "ls")])]])])) = .vstr "" :=
  ⟨rfl, c2_amended _ rfl⟩

/-- C9, counterexample.  The claim says printing the preview line never
raises, whatever the shape of the payload, including non-string values in the
designated text field.  It can raise: with `message = {text: 1}` the truthy
non-string is kept as the extracted text and `text.substring(0, 60)` throws a
TypeError, so the call returns raised, with nothing printed — though the id
was already recorded (the per-line handler in the file processor then
swallows the error). -/
theorem c9_counterexample :
    (processMessage false .vnull
        (mkEntry "user" (.vstr "m2") (.vobj [("text", .vnum 1)]))
        "s" "p" "c" (initialMonitorState defaultInit)).raised = true ∧
    (processMessage false .vnull
        (mkEntry "user" (.vstr "m2") (.vobj [("text", .vnum 1)]))
        "s" "p" "c" (initialMonitorState defaultInit)).printed = [] ∧
    (processMessage false .vnull
        (mkEntry "user" (.vstr "m2") (.vobj [("text", .vnum 1)]))
        "s" "p" "c" (initialMonitorState defaultInit)).state.processedMessages =
      [.vstr "m2"] := by
  refine ⟨rfl, rfl, rfl⟩

/-- C9, amended: the local echo completes without raising whenever the
extracted text is a string — i.e. the payload is a plain string, absent, or a
structured payload whose `text` field is falsy or a string; only a truthy
non-string `text` field makes the preview computation throw. -/
theorem c9_amended (sf : Bool) (now uVal msg : JSValue)
    (ty sess pp cid : String) (st : MonitorState) (s : String)
    (hty : ty = "user" ∨ ty = "assistant")
    (htr : jsTruthy uVal = true)
    (hfresh : setHas st.processedMessages uVal = false)
    (htext : extractText (some msg) = .vstr s) :
    (processMessage sf now (mkEntry ty uVal msg) sess pp cid st).raised = false :=
  (pm_fresh_string_prints sf now uVal msg ty sess pp cid st s hty htr hfresh htext).1

/-- Witness for `c9_amended` at a concrete string payload. -/
theorem c9_amended_witness :
    jsTruthy (.vstr "w9") = true ∧
    setHas (initialMonitorState defaultInit).processedMessages (.vstr "w9") = false ∧
    extractText (some (.vstr "plain")) = .vstr "plain" ∧
    (processMessage false .vnull (mkEntry "user" (.vstr "w9") (.vstr "plain"))
        "s" "p" "c" (initialMonitorState defaultInit)).raised = false :=
  ⟨by decide, by decide, rfl,
    c9_amended false .vnull (.vstr "w9") (.vstr "plain") "user" "s" "p" "c"
      (initialMonitorState defaultInit) "plain" (Or.inl rfl) (by decide)
      (by decide) rfl⟩

/-- C7.  Session identity resolution (src/index.js lines 169–176) is
deterministic and idempotent: for a file path not yet in the cache, the first
resolution returns the MD5 hex digest of `"{projectPath}:{conversationId}"`
(the digest function itself is Node's crypto library, abstracted here as
`md5hex`) and caches it under the file path; resolving the same file path
again returns the identical value and leaves the cache unchanged. -/
theorem c7_session_resolution (md5hex : String → String)
    (filepath pp cid : String) (cache : List (String × String))
    (hfresh : mapGet cache filepath = none) :
    (resolveSession md5hex filepath pp cid cache).1 = md5hex (pp ++ ":" ++ cid) ∧
    mapGet (resolveSession md5hex filepath pp cid cache).2 filepath =
      some (md5hex (pp ++ ":" ++ cid)) ∧
    resolveSession md5hex filepath pp cid (resolveSession md5hex filepath pp cid cache).2 =
      ((resolveSession md5hex filepath pp cid cache).1,
       (resolveSession md5hex filepath pp cid cache).2) := by
  simp [resolveSession, hfresh, mapGet]

/-- Witness for `c7_session_resolution` on an empty cache. -/
theorem c7_session_resolution_witness :
    mapGet ([] : List (String × String)) "/r/projects/a-b/c1.jsonl" = none ∧
    (resolveSession (fun s => s ++ "!") "/r/projects/a-b/c1.jsonl" "a/b" "c1" []).1 =
      (fun s => s ++ "!") ("a/b" ++ ":" ++ "c1") :=
  ⟨rfl, (c7_session_resolution (fun s => s ++ "!") "/r/projects/a-b/c1.jsonl"
    "a/b" "c1" [] rfl).1⟩

/-- An eligible entry with no `uuid` property is dropped unchanged
(`entry.uuid` is `undefined`, hence falsy). -/
theorem pm_missing_uuid_drop (sf : Bool) (now msg : JSValue)
    (ty sess pp cid : String) (st : MonitorState)
    (hty : ty = "user" ∨ ty = "assistant") :
    processMessage sf now (mkEntryNoId ty msg) sess pp cid st =
      ⟨st, [], [], false, false⟩ := by
  rcases hty with h | h <;> subst h <;>
    simp [processMessage, mkEntryNoId, jsGet, jsGetD, jsLookup, jsStrEq]

/-- C6.  Message handling is idempotent in the entry id (lines 203–209):
(i) an eligible entry with no unique id (absent `uuid` property) is dropped
with no state change, nothing printed, no record, no throw; (ii) likewise
one whose id value is falsy; (iii) one whose id is already in the
processed-id set is dropped the same way; and (iv) for a fresh id the id is
inserted into the set *before* extraction, printing or forwarding: the
resulting state is the old state plus the id for **every** payload (even one
whose echo throws), whether or not the sink fails, in every mode. -/
theorem c6_dedup_idempotent (sf : Bool) (now uFalsy uVal msg : JSValue)
    (ty sess pp cid : String) (st : MonitorState)
    (hty : ty = "user" ∨ ty = "assistant") :
    (processMessage sf now (mkEntryNoId ty msg) sess pp cid st =
      ⟨st, [], [], false, false⟩) ∧
    (jsTruthy uFalsy = false →
      processMessage sf now (mkEntry ty uFalsy msg) sess pp cid st =
        ⟨st, [], [], false, false⟩) ∧
    (jsTruthy uVal = true → setHas st.processedMessages uVal = true →
      processMessage sf now (mkEntry ty uVal msg) sess pp cid st =
        ⟨st, [], [], false, false⟩) ∧
    (jsTruthy uVal = true → setHas st.processedMessages uVal = false →
      (processMessage sf now (mkEntry ty uVal msg) sess pp cid st).state =
        { st with processedMessages := uVal :: st.processedMessages }) :=
  ⟨pm_missing_uuid_drop sf now msg ty sess pp cid st hty,
   fun h => pm_falsy_uuid_drop sf now uFalsy msg ty sess pp cid st hty h,
   fun h1 h2 => pm_seen_drop sf now uVal msg ty sess pp cid st hty h1 h2,
   fun h1 h2 => pm_fresh_state sf now uVal msg ty sess pp cid st hty h1 h2⟩

/-- Witness for `c6_dedup_idempotent` at concrete inputs: falsy id `""`,
fresh truthy id `"u1"`, empty initial set. -/
theorem c6_dedup_idempotent_witness :
    jsTruthy (.vstr "") = false ∧ jsTruthy (.vstr "u1") = true ∧
    setHas (initialMonitorState defaultInit).processedMessages (.vstr "u1") = false ∧
    (processMessage true .vnull (mkEntry "user" (.vstr "") (.vobj []))
        "s" "p" "c" (initialMonitorState defaultInit) =
      ⟨initialMonitorState defaultInit, [], [], false, false⟩) ∧
    ((processMessage true .vnull (mkEntry "user" (.vstr "u1") (.vobj []))
        "s" "p" "c" (initialMonitorState defaultInit)).state =
      { initialMonitorState defaultInit with processedMessages := [.vstr "u1"] }) :=
  ⟨by decide, by decide, by decide,
    (c6_dedup_idempotent true .vnull (.vstr "") (.vstr "u1") (.vobj [])
      "user" "s" "p" "c" (initialMonitorState defaultInit) (Or.inl rfl)).2.1
      (by decide),
    (c6_dedup_idempotent true .vnull (.vstr "") (.vstr "u1") (.vobj [])
      "user" "s" "p" "c" (initialMonitorState defaultInit) (Or.inl rfl)).2.2.2
      (by decide) (by decide)⟩

/-- C10.  Deduplication is global, by entry id alone: whenever the id of an
eligible entry is already in the processed-id set — from whatever file it was
first seen — processing it again forwards nothing and changes nothing,
regardless of the session id, project path, conversation id or payload now
supplied. -/
theorem c10_global_dedup (sf : Bool) (now uVal msg : JSValue)
    (ty sess pp cid : String) (st : MonitorState)
    (hty : ty = "user" ∨ ty = "assistant")
    (htr : jsTruthy uVal = true)
    (hseen : setHas st.processedMessages uVal = true) :
    processMessage sf now (mkEntry ty uVal msg) sess pp cid st =
      ⟨st, [], [], false, false⟩ :=
  pm_seen_drop sf now uVal msg ty sess pp cid st hty htr hseen

/-- Witness for `c10_global_dedup`: the id `"m1"` was recorded (say from file
A with session `"sessA"`); an entry with the same id arriving with a
different session id, project, conversation and payload is dropped without
any effect. -/
theorem c10_global_dedup_witness :
    jsTruthy (.vstr "m1") = true ∧
    setHas [JSValue.vstr "m1"] (.vstr "m1") = true ∧
    (processMessage false .vnull
        (mkEntry "assistant" (.vstr "m1") (.vobj [("text", .vstr "other")]))
        "sessB" "x/y" "conv9"
        { options := mkMonitorOptions defaultInit
        , processedMessages := [.vstr "m1"]
        , conversationSessions := [("/r/projects/a-b/c1.jsonl", "sessA")] } =
      ⟨{ options := mkMonitorOptions defaultInit
       , processedMessages := [.vstr "m1"]
       , conversationSessions := [("/r/projects/a-b/c1.jsonl", "sessA")] },
        [], [], false, false⟩) :=
  ⟨by decide, by decide,
    c10_global_dedup false .vnull (.vstr "m1")
      (.vobj [("text", .vstr "other")]) "assistant" "sessB" "x/y" "conv9"
      { options := mkMonitorOptions defaultInit
      , processedMessages := [.vstr "m1"]
      , conversationSessions := [("/r/projects/a-b/c1.jsonl", "sessA")] }
      (Or.inr rfl) (by decide) (by decide)⟩

/-- C8.  A sink error while forwarding is caught inside `processMessage`'s
try/catch: processing a two-line file with a permanently failing sink throws
nothing, emits no record, still prints both preview lines, and leaves **both**
ids in the processed-id set — the first entry's failure neither halts the
second entry nor un-marks the first id, so neither id would be retried. -/
theorem c8_sink_error_no_halt (md5hex : String → String)
    (parse : String → Option JSValue) (now : JSValue) (u1 u2 : String)
    (hp1 : parse "l1" = some (mkEntry "user" (.vstr u1) (.vobj [("text", .vstr "ta")])))
    (hp2 : parse "l2" = some (mkEntry "user" (.vstr u2) (.vobj [("text", .vstr "tb")])))
    (hu1 : u1 ≠ "") (hu2 : u2 ≠ "") (hne : u1 ≠ u2) :
    (processConversationFile md5hex parse now true "/r/projects/a-b/c1.jsonl"
        "l1\nl2" (initialMonitorState defaultInit)).2.2 = [] ∧
    (processConversationFile md5hex parse now true "/r/projects/a-b/c1.jsonl"
        "l1\nl2" (initialMonitorState defaultInit)).1.processedMessages =
      [.vstr u2, .vstr u1] ∧
    (processConversationFile md5hex parse now true "/r/projects/a-b/c1.jsonl"
        "l1\nl2" (initialMonitorState defaultInit)).2.1.length = 2 := by
  have htr1 : jsTruthy (.vstr u1) = true := by
    simp [jsTruthy]; exact hu1
  have htr2 : jsTruthy (.vstr u2) = true := by
    simp [jsTruthy]; exact hu2
  have hcore : processConversationFile md5hex parse now true
      "/r/projects/a-b/c1.jsonl" "l1\nl2" (initialMonitorState defaultInit) =
      List.foldl (processLineStep parse true now (md5hex "a/b:c1") "a/b" "c1")
        (⟨mkMonitorOptions defaultInit, [],
          [("/r/projects/a-b/c1.jsonl", md5hex "a/b:c1")]⟩, [], [])
        ["l1", "l2"] := rfl
  have hstep1 : processLineStep parse true now (md5hex "a/b:c1") "a/b" "c1"
      (⟨mkMonitorOptions defaultInit, [],
        [("/r/projects/a-b/c1.jsonl", md5hex "a/b:c1")]⟩, [], []) "l1" =
      (⟨mkMonitorOptions defaultInit, [.vstr u1],
        [("/r/projects/a-b/c1.jsonl", md5hex "a/b:c1")]⟩,
       [previewLine (some (.vstr "user")) "a/b"
          (jsMapReplace '\n' ' ' (jsTake 60 "ta"))], []) := by
    simp only [processLineStep, hp1]
    rw [pm_sink_failure now (.vstr u1) (.vobj [("text", .vstr "ta")]) "user"
      (md5hex "a/b:c1") "a/b" "c1"
      ⟨mkMonitorOptions defaultInit, [],
        [("/r/projects/a-b/c1.jsonl", md5hex "a/b:c1")]⟩
      "ta" (Or.inl rfl) htr1 rfl rfl rfl]
    rfl
  have hstep2 : processLineStep parse true now (md5hex "a/b:c1") "a/b" "c1"
      (⟨mkMonitorOptions defaultInit, [.vstr u1],
        [("/r/projects/a-b/c1.jsonl", md5hex "a/b:c1")]⟩,
       [previewLine (some (.vstr "user")) "a/b"
          (jsMapReplace '\n' ' ' (jsTake 60 "ta"))], []) "l2" =
      (⟨mkMonitorOptions defaultInit, [.vstr u2, .vstr u1],
        [("/r/projects/a-b/c1.jsonl", md5hex "a/b:c1")]⟩,
       [previewLine (some (.vstr "user")) "a/b"
          (jsMapReplace '\n' ' ' (jsTake 60 "ta")),
        previewLine (some (.vstr "user")) "a/b"
          (jsMapReplace '\n' ' ' (jsTake 60 "tb"))], []) := by
    have hfresh2 : setHas [JSValue.vstr u1] (.vstr u2) = false := by
      simp [setHas, JSValue.beq]
      exact hne
    simp only [processLineStep, hp2]
    rw [pm_sink_failure now (.vstr u2) (.vobj [("text", .vstr "tb")]) "user"
      (md5hex "a/b:c1") "a/b" "c1"
      ⟨mkMonitorOptions defaultInit, [.vstr u1],
        [("/r/projects/a-b/c1.jsonl", md5hex "a/b:c1")]⟩
      "tb" (Or.inl rfl) htr2 hfresh2 rfl rfl]
    rfl
  rw [hcore]
  simp only [List.foldl_cons, List.foldl_nil, hstep1, hstep2]
  exact ⟨trivial, trivial, rfl⟩

/-- Witness for `c8_sink_error_no_halt` at concrete ids `"ua"`, `"ub"`. -/
theorem c8_sink_error_no_halt_witness :
    c8WitnessParse "l1" =
      some (mkEntry "user" (.vstr "ua") (.vobj [("text", .vstr "ta")])) ∧
    c8WitnessParse "l2" =
      some (mkEntry "user" (.vstr "ub") (.vobj [("text", .vstr "tb")])) ∧
    ("ua" : String) ≠ "ub" ∧
    (processConversationFile (fun _ => "d") c8WitnessParse .vnull true
        "/r/projects/a-b/c1.jsonl" "l1\nl2"
        (initialMonitorState defaultInit)).2.2 = [] ∧
    (processConversationFile (fun _ => "d") c8WitnessParse .vnull true
        "/r/projects/a-b/c1.jsonl" "l1\nl2"
        (initialMonitorState defaultInit)).1.processedMessages =
      [.vstr "ub", .vstr "ua"] :=
  ⟨rfl, rfl, by decide,
    (c8_sink_error_no_halt (fun _ => "d") c8WitnessParse .vnull "ua" "ub"
      rfl rfl (by decide) (by decide) (by decide)).1,
    (c8_sink_error_no_halt (fun _ => "d") c8WitnessParse .vnull "ua" "ub"
      rfl rfl (by decide) (by decide) (by decide)).2.1⟩

/-- C1.  End-to-end: processing `<root>/projects/a-b-c/conv1.jsonl` holding
exactly one user-kind line with id `"m1"`, text `"hi"` and (truthy) timestamp
`tsv` emits exactly one Trace record — id `"m1"`, session id = the MD5 hex
digest of `"a/b/c:conv1"` (Node's crypto, abstracted as `md5hex`), input
`"hi"` — and reprocessing the identical content afterwards emits zero
additional records. -/
theorem c1_end_to_end (md5hex : String → String)
    (parse : String → Option JSValue) (tsv now : JSValue)
    (hp : parse c1Content = some (c1Entry tsv))
    (ht : jsTruthy tsv = true) :
    (processConversationFile md5hex parse now false c1Path c1Content
        (initialMonitorState defaultInit)).2.2 =
      [.trace (c1ExpectedTrace md5hex tsv)] ∧
    (processConversationFile md5hex parse now false c1Path c1Content
        (processConversationFile md5hex parse now false c1Path c1Content
          (initialMonitorState defaultInit)).1).2.2 = [] := by
  have hcore1 : processConversationFile md5hex parse now false c1Path c1Content
      (initialMonitorState defaultInit) =
      List.foldl (processLineStep parse false now (md5hex "a/b/c:conv1") "a/b/c" "conv1")
        (⟨mkMonitorOptions defaultInit, [], [(c1Path, md5hex "a/b/c:conv1")]⟩, [], [])
        [c1Content] := rfl
  have hstep1 : processLineStep parse false now (md5hex "a/b/c:conv1") "a/b/c" "conv1"
      (⟨mkMonitorOptions defaultInit, [], [(c1Path, md5hex "a/b/c:conv1")]⟩, [], [])
      c1Content =
      (⟨mkMonitorOptions defaultInit, [.vstr "m1"], [(c1Path, md5hex "a/b/c:conv1")]⟩,
       [previewLine (some (.vstr "user")) "a/b/c" "hi"],
       [.trace (c1ExpectedTrace md5hex tsv)]) := by
    have h1 : jsGet (c1Entry tsv) "type" = .ok (some (.vstr "user")) := rfl
    have h2 : jsGetD (c1Entry tsv) "uuid" = some (.vstr "m1") := rfl
    have h3 : jsGetD (c1Entry tsv) "message" =
      some (.vobj [("text", .vstr "hi")]) := rfl
    have h4 : jsGetD (c1Entry tsv) "timestamp" = some tsv := rfl
    have h5 : jsGetD (c1Entry tsv) "gitBranch" = none := rfl
    have h6 : jsGetD (c1Entry tsv) "cwd" = none := rfl
    have h7 : jsStrEq (some (JSValue.vstr "user")) "user" = true := rfl
    have h8 : jsStrEq (some (JSValue.vstr "user")) "assistant" = false := rfl
    have h9 : jsTruthy (.vstr "m1") = true := rfl
    have h10 : setHas ([] : List JSValue) (.vstr "m1") = false := rfl
    have h11 : extractText (some (.vobj [("text", .vstr "hi")])) = .vstr "hi" := rfl
    have h12 : jsPreviewOfText (.vstr "hi") = .ok "hi" := rfl
    simp only [processLineStep, hp, processMessage, h1, h2, h3, h4, h5, h6, h7, h8,
      h9, h10, h11, h12, jsTruthyO, ht, Bool.true_or, Bool.or_false, Bool.not_true,
      Bool.not_false, Option.getD_some, c1ExpectedTrace]
    rfl
  have hcore2 : processConversationFile md5hex parse now false c1Path c1Content
      (⟨mkMonitorOptions defaultInit, [.vstr "m1"], [(c1Path, md5hex "a/b/c:conv1")]⟩ :
        MonitorState) =
      List.foldl (processLineStep parse false now (md5hex "a/b/c:conv1") "a/b/c" "conv1")
        (⟨mkMonitorOptions defaultInit, [.vstr "m1"], [(c1Path, md5hex "a/b/c:conv1")]⟩,
          [], [])
        [c1Content] := rfl
  have hstep2 : processLineStep parse false now (md5hex "a/b/c:conv1") "a/b/c" "conv1"
      (⟨mkMonitorOptions defaultInit, [.vstr "m1"], [(c1Path, md5hex "a/b/c:conv1")]⟩,
        [], []) c1Content =
      (⟨mkMonitorOptions defaultInit, [.vstr "m1"], [(c1Path, md5hex "a/b/c:conv1")]⟩,
        [], []) := by
    have h1 : jsGet (c1Entry tsv) "type" = .ok (some (.vstr "user")) := rfl
    have h2 : jsGetD (c1Entry tsv) "uuid" = some (.vstr "m1") := rfl
    have h7 : jsStrEq (some (JSValue.vstr "user")) "user" = true := rfl
    have h9 : jsTruthy (.vstr "m1") = true := rfl
    have hseen : setHas [JSValue.vstr "m1"] (.vstr "m1") = true := rfl
    simp only [processLineStep, hp, processMessage, h1, h2, h7, h9, hseen,
      Bool.true_or, Bool.or_false, Bool.not_true, Bool.not_false]
    rfl
  constructor
  · rw [hcore1]
    simp only [List.foldl_cons, List.foldl_nil, hstep1]
  · rw [hcore1]
    simp only [List.foldl_cons, List.foldl_nil, hstep1]
    rw [hcore2]
    simp only [List.foldl_cons, List.foldl_nil, hstep2]

/-- Witness for `c1_end_to_end` at a concrete digest function, parse function
and timestamp. -/
theorem c1_end_to_end_witness :
    c1WitnessParse c1Content = some (c1Entry (.vstr "T")) ∧
    jsTruthy (.vstr "T") = true ∧
    (processConversationFile (fun _ => "d") c1WitnessParse .vnull false c1Path
        c1Content (initialMonitorState defaultInit)).2.2 =
      [.trace (c1ExpectedTrace (fun _ => "d") (.vstr "T"))] ∧
    (processConversationFile (fun _ => "d") c1WitnessParse .vnull false c1Path
        c1Content
        (processConversationFile (fun _ => "d") c1WitnessParse .vnull false c1Path
          c1Content (initialMonitorState defaultInit)).1).2.2 = [] :=
  ⟨rfl, by decide,
    (c1_end_to_end (fun _ => "d") c1WitnessParse (.vstr "T") .vnull rfl (by decide)).1,
    (c1_end_to_end (fun _ => "d") c1WitnessParse (.vstr "T") .vnull rfl (by decide)).2⟩
